import Mathlib

/-!
Shallow embedding of the turing-monitor core (src/main.rs and src/render.rs)
together with spec-modelled fragments for the repository files that are not
under src/ (meter.rs, scheduler.rs, themes.rs, fonts.rs, cpu.rs).

Machine scalars: the sampled values are f32 in the source; they are modelled
as ℚ, which is exact on every value used in the claims. External effects
(device writes, glyph drawing, warn/error logging, font file reads) are
recorded as explicit event traces.
-/

namespace TuringMonitor

/-- RGBA color (turing_screen::Rgba, an external collaborator type). -/
structure Rgba where
  r : Nat
  g : Nat
  b : Nat
  a : Nat
deriving DecidableEq, Repr

/-- Pixel coordinate (turing_screen::Coord). -/
structure Coord where
  x : Nat
  y : Nat
deriving DecidableEq, Repr

/-- Pixel rectangle (turing_screen::Rect). -/
structure Rect where
  x : Nat
  y : Nat
  w : Nat
  h : Nat
deriving DecidableEq, Repr

/-- Text widget layout (themes::Text; themes.rs is not under src/).
Modelled from the spec: TextWidget{x, y, font name, font size, color}. -/
structure Text where
  font : String
  font_size : Nat
  font_color : Rgba
  x : Nat
  y : Nat
deriving DecidableEq, Repr

/-- Graph widget layout (themes::Graph; themes.rs is not under src/).
Modelled from the spec: GraphWidget{…} is an open extension point whose fields
the core never reads, so it carries no data here. -/
structure Graph where
  mk ::
deriving DecidableEq, Repr

/-- Widget layout bound to a meter (themes::DeviceMeter; themes.rs is not under
src/). Modelled from the spec: a tagged variant, text or graph; render.rs reads
it through the two optional fields. -/
structure DeviceMeter where
  text : Option Text
  graph : Option Graph
deriving DecidableEq, Repr

/-- Meter configuration (meter::MeterConfig; meter.rs is not under src/).
Modelled from the spec: {id: MeterId, interval: positive duration, layout}. -/
structure MeterConfig where
  id : Nat
  interval : Nat
  layout : DeviceMeter
deriving DecidableEq, Repr

/-- A loaded font handle (fonts::Font; fonts.rs is not under src/). Modelled
from the spec: the font capability is `load(bytes) -> Font`; only the loaded
bytes identify the handle here. -/
structure Font where
  data : List Nat
deriving DecidableEq, Repr

/-- Association-list lookup, the model of HashMap::get / contains_key. -/
def alookup {α β : Type} [DecidableEq α] (k : α) : List (α × β) → Option β
  | [] => none
  | (k₂, v) :: rest => if k = k₂ then some v else alookup k rest

/-- Association-list insert, the model of HashMap::insert: overwrite the value
when the key is present, otherwise append the new binding. -/
def insertAssoc {α β : Type} [DecidableEq α] (m : List (α × β)) (k : α) (v : β) :
    List (α × β) :=
  if (alookup k m).isSome then
    m.map (fun p => if p.1 = k then (k, v) else p)
  else
    m ++ [(k, v)]

/-- One glyph-drawing call (an invocation of fonts::draw_text), recording every
argument the source passes. -/
structure DrawCall where
  font : String
  size : ℚ
  color : Rgba
  pos : Coord
  text : String
deriving DecidableEq, Repr

/-- Renderer-side observable state: the font cache plus the event traces of
glyph draws, device pushes (fb.render_on(scr, rect)) and warn/error log lines.
Debug/info logging is not traced. -/
structure RState where
  fonts : List (String × Font)
  drawn : List DrawCall
  pushed : List Rect
  logs : List String
deriving DecidableEq, Repr

/-- The type of fonts::draw_text (fonts.rs is not under src/). Modelled from
the spec: rasterize(font, size, color, position, text) returns the drawn
text's bounding rectangle. -/
def DrawTextFn : Type := String → ℚ → Rgba → Coord → String → Rect

/-- Round to the nearest integer with ties to even, the rounding Rust float
formatting applies at an explicit precision of 0 digits. -/
def roundHalfEven (v : ℚ) : ℤ :=
  let f : ℤ := v.num.fdiv (v.den : ℤ)
  let r : ℤ := v.num - f * (v.den : ℤ)
  if 2 * r < (v.den : ℤ) then f
  else if (v.den : ℤ) < 2 * r then f + 1
  else if f % 2 = 0 then f else f + 1

/-- Right-justify a string in a field of the given width by padding with
spaces on the left (no truncation). -/
def rightJustify (width : Nat) (s : String) : String :=
  String.mk (List.replicate (width - s.length) ' ') ++ s

/-- The format! call of Renderer::render_text (render.rs line 108):
`format!("{:>size$.*}", 0, value, size = field_size)` — the value at an
explicit precision of 0 digits, right-justified in a field of `field_size`. -/
def formatValue (field_size : Nat) (value : ℚ) : String :=
  rightJustify field_size (toString (roundHalfEven value))

/-- Renderer::render_text (render.rs lines 107-125). The cache miss is the
only error path and precedes every write. The color is the hardcoded
Rgba::new(0xff, 0, 0, 0xff) of line 117, where `text.font_color` sits in a
comment. The drawn rectangle is pushed to the device immediately. -/
def render_text (dt : DrawTextFn) (text : Text) (field_size : Nat) (value : ℚ)
    (st : RState) : Except String RState :=
  let s := formatValue field_size value
  if (alookup text.font st.fonts).isNone then
    Except.error ("font not loaded: " ++ text.font)
  else
    let size : ℚ := (text.font_size : ℚ) * 110 / 200
    let color : Rgba := ⟨0xff, 0, 0, 0xff⟩
    let pos : Coord := ⟨text.x, text.y⟩
    let rect := dt text.font size color pos s
    Except.ok { st with
      drawn := st.drawn ++ [⟨text.font, size, color, pos, s⟩],
      pushed := st.pushed ++ [rect] }

/-- Renderer::render_graph (render.rs lines 127-130): logs at debug level and
succeeds without drawing. -/
def render_graph (_g : Graph) (_value : ℚ) (st : RState) : Except String RState :=
  Except.ok st

/-- Renderer::render_widget (render.rs lines 96-105). The widget table is read
by direct indexing (`self.widgets[&id]`), which panics when the id is absent;
a panic is `none`. -/
def render_widget (dt : DrawTextFn) (widgets : List (Nat × DeviceMeter))
    (id : Nat) (value : ℚ) (st : RState) : Option (Except String RState) :=
  match alookup id widgets with
  | none => none
  | some widget =>
    some (match widget.text with
          | some w => render_text dt w 3 value st
          | none =>
            match widget.graph with
            | some w => render_graph w value st
            | none => Except.ok st)

/-- Renderer::render (render.rs lines 89-94): visit every entry of the
received measurements and call render_widget, discarding its Result (the
source statement drops the value, so an error is not logged and does not stop
the loop; the state is unchanged on error because render_text's only error
path precedes every write). A panic in render_widget propagates (`none`). -/
def render (dt : DrawTextFn) (widgets : List (Nat × DeviceMeter))
    (measurements : List (Nat × ℚ)) (st : RState) : Option RState :=
  match measurements with
  | [] => some st
  | (id, v) :: rest =>
    match render_widget dt widgets id v st with
    | none => none
    | some (Except.ok st₂) => render dt widgets rest st₂
    | some (Except.error _) => render dt widgets rest st

/-- One conduit receive outcome seen by the render loop: a snapshot, or the
error recv returns once the producer end is gone. -/
inductive RecvResult where
  | ok (measurements : List (Nat × ℚ))
  | err
deriving DecidableEq, Repr

/-- The render loop of Renderer::start (render.rs lines 76-87), run over a
finite prefix of conduit receive outcomes. The loop body has no break: the Err
arm logs a warning and the loop continues. The per-iteration background
re-copy (line 85) touches only the framebuffer, never the device, so it leaves
no trace. Returns `none` on a panic, otherwise the final state and whether the
loop was exited before the outcomes ran out. -/
def renderLoop (dt : DrawTextFn) (widgets : List (Nat × DeviceMeter)) :
    List RecvResult → RState → Option (RState × Bool)
  | [], st => some (st, false)
  | RecvResult.ok ms :: rest, st =>
    match render dt widgets ms st with
    | none => none
    | some st₂ => renderLoop dt widgets rest st₂
  | RecvResult.err :: rest, st =>
    renderLoop dt widgets rest
      { st with logs := st.logs ++ ["renderer receive error"] }

/-- The font-loading and widget-table loop of Renderer::new (render.rs lines
26-41), with the trace of font names loaded (each load is one std::fs::read of
res/fonts/<name> followed by fonts::Font::from_data). `readFile` stands for
std::fs::read and `fromData` for fonts::Font::from_data (fonts.rs is not under
src/); either failure aborts construction through `?`. A font already in the
cache is skipped (the "don't load fonts twice" check of line 32). -/
def loadFonts (readFile : String → Except String (List Nat))
    (fromData : List Nat → Except String Font) :
    List MeterConfig → List (Nat × DeviceMeter) → List (String × Font) →
    List String →
    Except String (List (Nat × DeviceMeter) × List (String × Font) × List String)
  | [], widgets, fontMap, loads => Except.ok (widgets, fontMap, loads)
  | cfg :: rest, widgets, fontMap, loads =>
    let widgets₂ := insertAssoc widgets cfg.id cfg.layout
    match cfg.layout.text with
    | none => loadFonts readFile fromData rest widgets₂ fontMap loads
    | some text =>
      if (alookup text.font fontMap).isSome then
        loadFonts readFile fromData rest widgets₂ fontMap loads
      else
        match readFile ("res/fonts/" ++ text.font) with
        | Except.error e => Except.error e
        | Except.ok data =>
          match fromData data with
          | Except.error e => Except.error e
          | Except.ok font =>
            loadFonts readFile fromData rest widgets₂
              (fontMap ++ [(text.font, font)]) (loads ++ [text.font])

/-- Renderer::new (render.rs lines 23-62): build the widget table and font
cache from the configs, then initialize the device. `dev` stands for the
external turing_screen initialization sequence (new, init, screen_on,
set_brightness, each fallible through `?`) followed by screen_size. On
success it returns the widget table, the font cache and the font-load trace. -/
def rendererNew (readFile : String → Except String (List Nat))
    (fromData : List Nat → Except String Font)
    (dev : Except String (Nat × Nat)) (configs : List MeterConfig) :
    Except String (List (Nat × DeviceMeter) × List (String × Font) × List String) :=
  match loadFonts readFile fromData configs [] [] [] with
  | Except.error e => Except.error e
  | Except.ok res =>
    match dev with
    | Except.error e => Except.error e
    | Except.ok _wh => Except.ok res

/-- The font names referenced by the TextWidgets of a config list, in order
and with repetitions. -/
def referencedFonts (configs : List MeterConfig) : List String :=
  configs.filterMap (fun cfg => cfg.layout.text.map (fun t => t.font))

/-- const_xxh3(b"CPU:PERCENTAGE") (main.rs line 118): the compile-time XXH3-64
hash computed by the external xxhash_rust crate; the binary only carries this
64-bit constant. -/
def CPU_PERCENTAGE : Nat := 0x6174a8fce1f398c9

/-- const_xxh3(b"CPU:TEMPERATURE") (main.rs line 119). -/
def CPU_TEMPERATURE : Nat := 0x4b96ea041026dc71

/-- A constructed meter instance (meter.rs is not under src/). Modelled from
the spec: a Meter is created for one MeterId; only that identity matters to
the scheduler's task bookkeeping. -/
structure Meter where
  id : Nat
deriving DecidableEq, Repr

/-- create_meter (main.rs lines 121-129). `pctNew` and `tempNew` stand for
CpuPercentage::new and CpuTemperature::new (cpu.rs is not under src/); the `?`
operator propagates their failure, and any other id is "invalid meter". -/
def create_meter (pctNew tempNew : Nat → Except String Meter) (id : Nat) :
    Except String Meter :=
  if id = CPU_PERCENTAGE then pctNew id
  else if id = CPU_TEMPERATURE then tempNew id
  else Except.error "invalid meter"

/-- A sampling task (scheduler.rs is not under src/). Modelled from the spec:
a Task owns one Meter instance and its configured interval. -/
structure Task where
  meter : Meter
  interval : Nat
deriving DecidableEq, Repr

/-- The Scheduler's task set (scheduler.rs is not under src/). Modelled from
the spec: the Scheduler owns all registered sampling tasks; register_task
inserts by the task's MeterId. -/
structure SchedulerS where
  tasks : List Task
deriving DecidableEq, Repr

/-- Scheduler::register_task (scheduler.rs is not under src/). Modelled from
the spec: insert the task, keyed by its meter's id. -/
def register_task (sch : SchedulerS) (t : Task) : SchedulerS :=
  { sch with tasks := sch.tasks ++ [t] }

/-- The MeterIds the scheduler holds a task for. -/
def taskIds (sch : SchedulerS) : List Nat :=
  sch.tasks.map (fun t => t.meter.id)

/-- register_meters (main.rs lines 104-116): for each config, construct its
meter and register a task; on failure log a warning ("cannot register …") and
skip that config. Returns the scheduler and the warning trace. -/
def register_meters (pctNew tempNew : Nat → Except String Meter)
    (sch : SchedulerS) (configs : List MeterConfig) : SchedulerS × List String :=
  configs.foldl
    (fun acc cfg =>
      match create_meter pctNew tempNew cfg.id with
      | Except.ok m => (register_task acc.1 (Task.mk m cfg.interval), acc.2)
      | Except.error e =>
        (acc.1, acc.2 ++ ["cannot register " ++ toString cfg.id ++ ": " ++ e]))
    (sch, [])

/-- The measurement-table initialization of run (main.rs lines 75-79): insert
a 0.0 entry for every configured id. -/
def initMeasurements (configs : List MeterConfig) : List (Nat × ℚ) :=
  configs.foldl (fun ms cfg => insertAssoc ms cfg.id 0) []

/-- One scheduler quantum over the measurement table (scheduler.rs is not
under src/). Modelled from the spec: only ids with a registered task are ever
sampled; a successful sample overwrites the entry, a failed one (`none`)
retains the previous value; entries without a task are never touched. -/
def tickTable (ids : List Nat) (sample : Nat → Option ℚ) (table : List (Nat × ℚ)) :
    List (Nat × ℚ) :=
  table.map (fun p =>
    if p.1 ∈ ids then
      match sample p.1 with
      | some v => (p.1, v)
      | none => p
    else p)

/-- The published snapshots of a scheduler run (scheduler.rs is not under
src/). Modelled from the spec: at every publish instant the Scheduler copies
the entire MeasurementTable into a Snapshot; one list element per publish,
each fed by the sampling outcomes of the quantum before it. -/
def snapshots (ids : List Nat) :
    List (Nat → Option ℚ) → List (Nat × ℚ) → List (List (Nat × ℚ))
  | [], _ => []
  | s :: rest, table =>
    let table₂ := tickTable ids s table
    table₂ :: snapshots ids rest table₂

/-- True exactly on Except.ok. -/
def isOkE {α : Type} (e : Except String α) : Bool :=
  match e with
  | Except.ok _ => true
  | Except.error _ => false

/-- The observable outcome of run (main.rs lines 61-102) and of the process
exit protocol of main (lines 49-59). -/
structure RunTrace where
  rendererResult : Except String Unit
  renderLoopStarted : Bool
  threadLogs : List String
  schedulerStarted : Bool
  runResult : Except String Unit
deriving Repr

/-- run (main.rs lines 61-102) after theme loading: build the initial
measurement table, spawn the renderer thread — inside it Renderer::new either
succeeds and start() is entered (its loop runs once the background decode
`bg` succeeds) or fails, in which case the thread logs "error: …" and returns
— then, unconditionally and whatever the renderer thread did, construct the
Scheduler, register the meters and start the scheduler loop. The scheduler
loop ends when the conduit is severed (modelled from the spec: it terminates
only when the far end is gone), after which run returns Ok(()). -/
def runModel (readFile : String → Except String (List Nat))
    (fromData : List Nat → Except String Font)
    (dev : Except String (Nat × Nat)) (bg : Except String Unit)
    (_pctNew _tempNew : Nat → Except String Meter)
    (configs : List MeterConfig) : RunTrace :=
  let rinit := rendererNew readFile fromData dev configs
  let started := isOkE rinit && isOkE bg
  let tlogs :=
    match rinit with
    | Except.error e => ["error: " ++ e]
    | Except.ok _ => []
  { rendererResult := Except.map (fun _ => ()) rinit
    renderLoopStarted := started
    threadLogs := tlogs
    schedulerStarted := true
    runResult := Except.ok () }

/-- main (main.rs lines 49-59): exit status 1 when run returns an error,
status 0 otherwise. -/
def mainExitCode (runResult : Except String Unit) : Nat :=
  match runResult with
  | Except.ok _ => 0
  | Except.error _ => 1

/-- Spec-side description of one snapshot's drawing work, for comparison with
the stateful render loop: the glyph-draw calls of exactly those measurement
entries whose widget exists, is a TextWidget, and whose font is in the cache —
in snapshot order, with the arguments render_text passes. -/
def textDraws (widgets : List (Nat × DeviceMeter)) (fonts : List (String × Font))
    (ms : List (Nat × ℚ)) : List DrawCall :=
  ms.filterMap (fun p =>
    match alookup p.1 widgets with
    | none => none
    | some widget =>
      match widget.text with
      | none => none
      | some w =>
        if (alookup w.font fonts).isSome then
          some ⟨w.font, (w.font_size : ℚ) * 110 / 200, ⟨0xff, 0, 0, 0xff⟩,
            ⟨w.x, w.y⟩, formatValue 3 p.2⟩
        else none)

/-- The device rectangle a draw call produces. -/
def applyDraw (dt : DrawTextFn) (c : DrawCall) : Rect :=
  dt c.font c.size c.color c.pos c.text

/-- A concrete instance of fonts::draw_text used to evaluate the model on
concrete inputs: an 8×16-per-glyph bounding box at the requested position. -/
def sampleDrawText : DrawTextFn :=
  fun _font _size _color pos s => ⟨pos.x, pos.y, 8 * s.length, 16⟩

/-- Concrete font handle for evaluation. -/
def fontA : Font := ⟨[0]⟩

/-- Concrete font handle for evaluation. -/
def fontB : Font := ⟨[1]⟩

/-- Concrete text widget: font a.ttf, white, at (10, 10). -/
def textA : Text := ⟨"a.ttf", 20, ⟨255, 255, 255, 255⟩, 10, 10⟩

/-- Concrete text widget: font b.ttf, green, at (10, 40). -/
def textB : Text := ⟨"b.ttf", 20, ⟨0, 255, 0, 255⟩, 10, 40⟩

/-- Concrete widget table with two text widgets. -/
def sampleWidgets : List (Nat × DeviceMeter) :=
  [(1, ⟨some textA, none⟩), (2, ⟨some textB, none⟩)]

/-- Concrete renderer state with both fonts cached and empty traces. -/
def sampleState : RState :=
  ⟨[("a.ttf", fontA), ("b.ttf", fontB)], [], [], []⟩

/-- Concrete renderer state with only b.ttf cached. -/
def stateOnlyB : RState :=
  ⟨[("b.ttf", fontB)], [], [], []⟩

/-- A concrete always-succeeding meter constructor (a CpuPercentage::new or
CpuTemperature::new whose sensor is available), keeping the requested id. -/
def okM : Nat → Except String Meter := fun i => Except.ok ⟨i⟩

/-- A concrete always-failing meter constructor (sensor unavailable). -/
def errM : Nat → Except String Meter := fun _ => Except.error "sensor unavailable"

/-- A concrete always-succeeding file read. -/
def rfOk : String → Except String (List Nat) := fun _ => Except.ok [7]

/-- A concrete always-succeeding Font::from_data. -/
def fdOk : List Nat → Except String Font := fun d => Except.ok ⟨d⟩

/-- Concrete config list: one widget on an id with no registered constructor. -/
def cfgUnknown : List MeterConfig := [⟨42, 1, ⟨some textA, none⟩⟩]

/-- Concrete config list: three text widgets over two distinct font names
plus one graph widget. -/
def cfgsFonts : List MeterConfig :=
  [⟨1, 1, ⟨some textA, none⟩⟩, ⟨2, 1, ⟨some textB, none⟩⟩,
   ⟨3, 1, ⟨some ⟨"a.ttf", 14, ⟨0, 0, 0, 255⟩, 5, 5⟩, none⟩⟩,
   ⟨4, 1, ⟨none, some ⟨⟩⟩⟩]

/-- The draw call render_text records for the given text widget and value
(each field spelled exactly as render_text computes it). -/
def mkDrawCall (t : Text) (v : ℚ) : DrawCall :=
  ⟨t.font, (t.font_size : ℚ) * 110 / 200, ⟨0xff, 0, 0, 0xff⟩, ⟨t.x, t.y⟩,
   formatValue 3 v⟩

/-- The draw call render_text records for textA at value 55. -/
def drawCallA55 : DrawCall :=
  ⟨"a.ttf", (textA.font_size : ℚ) * 110 / 200, ⟨0xff, 0, 0, 0xff⟩, ⟨10, 10⟩, " 55"⟩

/- ------------------------------------------------------------------ -/
/- Theorems.                                                          -/
/- ------------------------------------------------------------------ -/

/-- The render loop of Renderer::start has no exit: whatever the receive
outcomes, it is still looping when they run out. -/
theorem renderLoop_never_exits (dt : DrawTextFn) (widgets : List (Nat × DeviceMeter)) :
    ∀ (inputs : List RecvResult) (st st₂ : RState) (b : Bool),
      renderLoop dt widgets inputs st = some (st₂, b) → b = false := by
  intro inputs
  induction inputs with
  | nil =>
    intro st st₂ b h
    simp only [renderLoop, Option.some.injEq, Prod.mk.injEq] at h
    exact h.2.symm
  | cons r rest ih =>
    intro st st₂ b h
    cases r with
    | ok ms =>
      simp only [renderLoop] at h
      cases hr : render dt widgets ms st with
      | none => rw [hr] at h; exact absurd h (by simp)
      | some st₃ => rw [hr] at h; exact ih st₃ st₂ b h
    | err =>
      simp only [renderLoop] at h
      exact ih _ st₂ b h

/-- C1, corrected. When device initialization fails, Renderer construction
returns an error and the render loop never starts, but the failure is only
logged inside the rendering thread: the Scheduler is constructed and started
regardless, and run returns Ok, so the process exit status is 0, not
non-zero. -/
theorem claimC1_amended (readFile : String → Except String (List Nat))
    (fromData : List Nat → Except String Font) (e : String)
    (bg : Except String Unit) (p t : Nat → Except String Meter)
    (configs : List MeterConfig) :
    isOkE (runModel readFile fromData (Except.error e) bg p t configs).rendererResult
        = false ∧
    (runModel readFile fromData (Except.error e) bg p t configs).renderLoopStarted
        = false ∧
    (runModel readFile fromData (Except.error e) bg p t configs).schedulerStarted
        = true ∧
    mainExitCode (runModel readFile fromData (Except.error e) bg p t configs).runResult
        = 0 := by
  cases h : loadFonts readFile fromData configs [] [] [] with
  | error e₂ => simp [runModel, rendererNew, h, isOkE, mainExitCode, Except.map]
  | ok res => simp [runModel, rendererNew, h, isOkE, mainExitCode, Except.map]

/-- C1, counterexample to the claim as stated: with device initialization
failing, the Scheduler loop is still entered and the process exit status is 0
(the claim asserts the Scheduler loop is never entered and the exit status is
non-zero). -/
theorem claimC1_counterexample :
    (runModel rfOk fdOk (Except.error "device init failed") (Except.ok ())
        okM okM cfgUnknown).schedulerStarted = true ∧
    mainExitCode (runModel rfOk fdOk (Except.error "device init failed")
        (Except.ok ()) okM okM cfgUnknown).runResult = 0 ∧
    isOkE (runModel rfOk fdOk (Except.error "device init failed") (Except.ok ())
        okM okM cfgUnknown).rendererResult = false ∧
    (runModel rfOk fdOk (Except.error "device init failed") (Except.ok ())
        okM okM cfgUnknown).renderLoopStarted = false := by
  refine ⟨rfl, rfl, rfl, rfl⟩

/-- C2, corrected. When the conduit receive errors, the Renderer logs the
error but does not exit its loop: the iteration after the Err arm proceeds
exactly as if the loop had been entered afresh with the warning appended, and
the loop is never exited early (the Err arm itself touches no device state,
so the device stays in its last-rendered state). -/
theorem claimC2_amended (dt : DrawTextFn) (widgets : List (Nat × DeviceMeter))
    (inputs : List RecvResult) (st st₂ : RState) (b : Bool)
    (h : renderLoop dt widgets (RecvResult.err :: inputs) st = some (st₂, b)) :
    b = false ∧
    renderLoop dt widgets inputs
        { st with logs := st.logs ++ ["renderer receive error"] } =
      some (st₂, false) := by
  have hb := renderLoop_never_exits dt widgets (RecvResult.err :: inputs) st st₂ b h
  subst hb
  exact ⟨rfl, h⟩

/-- C2, counterexample to the claim as stated: after a receive error the loop
does not exit — a snapshot received later is still rendered (one draw recorded
after the error was logged), and the loop is still running at the end. -/
theorem claimC2_counterexample :
    (renderLoop sampleDrawText sampleWidgets
        [RecvResult.err, RecvResult.ok [(1, 55)]] sampleState).map
      (fun p => (p.1.drawn.length, p.1.logs, p.2)) =
      some (1, ["renderer receive error"], false) := by
  decide

/-- C2 witness: the amended theorem applied to a concrete run. -/
theorem claimC2_witness :
    false = false ∧
    renderLoop sampleDrawText sampleWidgets [RecvResult.ok [(1, 55)]]
        { sampleState with logs := sampleState.logs ++ ["renderer receive error"] } =
      some (⟨[("a.ttf", fontA), ("b.ttf", fontB)], [drawCallA55],
             [⟨10, 10, 24, 16⟩], ["renderer receive error"]⟩, false) :=
  claimC2_amended sampleDrawText sampleWidgets [RecvResult.ok [(1, 55)]]
    sampleState _ false rfl

/-- Trace characterization of Renderer::render: a processed snapshot leaves
the font cache and warn/error log untouched, and appends exactly one draw and
one device push per drawn text widget — those listed by textDraws — in
snapshot order. -/
theorem render_trace (dt : DrawTextFn) (widgets : List (Nat × DeviceMeter)) :
    ∀ (ms : List (Nat × ℚ)) (st st₂ : RState),
      render dt widgets ms st = some st₂ →
      st₂.fonts = st.fonts ∧ st₂.logs = st.logs ∧
      st₂.drawn = st.drawn ++ textDraws widgets st.fonts ms ∧
      st₂.pushed = st.pushed ++ (textDraws widgets st.fonts ms).map (applyDraw dt) := by
  intro ms
  induction ms with
  | nil =>
    intro st st₂ h
    simp only [render, Option.some.injEq] at h
    subst h
    simp [textDraws]
  | cons p rest ih =>
    intro st st₂ h
    obtain ⟨id, v⟩ := p
    simp only [render] at h
    cases hw : alookup id widgets with
    | none =>
      simp [render_widget, hw] at h
    | some widget =>
      simp only [render_widget, hw] at h
      cases htext : widget.text with
      | some w =>
        rw [htext] at h
        cases hfont : alookup w.font st.fonts with
        | none =>
          simp [render_text, hfont] at h
          have h₂ := ih st st₂ h
          have ht : textDraws widgets st.fonts ((id, v) :: rest) =
              textDraws widgets st.fonts rest := by
            simp [textDraws, List.filterMap_cons, hw, htext, hfont]
          rw [ht]
          exact h₂
        | some fnt =>
          simp [render_text, hfont] at h
          have h₂ := ih _ st₂ h
          have ht : textDraws widgets st.fonts ((id, v) :: rest) =
              ⟨w.font, (w.font_size : ℚ) * 110 / 200, ⟨0xff, 0, 0, 0xff⟩,
               ⟨w.x, w.y⟩, formatValue 3 v⟩ :: textDraws widgets st.fonts rest := by
            simp [textDraws, List.filterMap_cons, hw, htext, hfont]
          rw [ht]
          obtain ⟨hf, hl, hd, hp⟩ := h₂
          simp only [] at hf hl hd hp
          refine ⟨by simpa using hf, by simpa using hl, ?_, ?_⟩
          · rw [hd]; simp [applyDraw]
          · rw [hp]; simp [applyDraw]
      | none =>
        rw [htext] at h
        cases hg : widget.graph with
        | some g =>
          simp [render_graph, hg] at h
          have h₂ := ih st st₂ h
          have ht : textDraws widgets st.fonts ((id, v) :: rest) =
              textDraws widgets st.fonts rest := by
            simp [textDraws, List.filterMap_cons, hw, htext]
          rw [ht]
          exact h₂
        | none =>
          simp [hg] at h
          have h₂ := ih st st₂ h
          have ht : textDraws widgets st.fonts ((id, v) :: rest) =
              textDraws widgets st.fonts rest := by
            simp [textDraws, List.filterMap_cons, hw, htext]
          rw [ht]
          exact h₂

/-- C4, corrected. A processed Snapshot causes one device push per drawn text
widget — each widget's own bounding rectangle, in snapshot order — so the
number of pushed regions equals the number of drawn widgets (never the full
frame and never untouched widgets), and there is no single accumulated
dirty-rectangle push per Snapshot. -/
theorem claimC4_amended (dt : DrawTextFn) (widgets : List (Nat × DeviceMeter))
    (ms : List (Nat × ℚ)) (st st₂ : RState)
    (h : render dt widgets ms st = some st₂) :
    st₂.pushed = st.pushed ++ (textDraws widgets st.fonts ms).map (applyDraw dt) ∧
    st₂.pushed.length = st.pushed.length + (textDraws widgets st.fonts ms).length := by
  obtain ⟨-, -, -, hp⟩ := render_trace dt widgets ms st st₂ h
  exact ⟨hp, by rw [hp]; simp⟩

/-- C4, counterexample to the claim as stated: a Snapshot with two drawn text
widgets causes two region pushes, not exactly one accumulated rectangle. -/
theorem claimC4_counterexample :
    (render sampleDrawText sampleWidgets [(1, 10), (2, 20)] sampleState).map
        (fun st => st.pushed) =
      some [⟨10, 10, 24, 16⟩, ⟨10, 40, 24, 16⟩] ∧
    (render sampleDrawText sampleWidgets [(1, 10), (2, 20)] sampleState).map
        (fun st => st.pushed.length) ≠ some 1 := by
  exact ⟨by decide, by decide⟩

/-- C4 witness: the amended theorem applied to a concrete two-widget
snapshot. -/
theorem claimC4_witness :
    (⟨sampleState.fonts, [mkDrawCall textA 10, mkDrawCall textB 20],
      [⟨10, 10, 24, 16⟩, ⟨10, 40, 24, 16⟩], []⟩ : RState).pushed =
      sampleState.pushed ++
        (textDraws sampleWidgets sampleState.fonts [(1, 10), (2, 20)]).map
          (applyDraw sampleDrawText) ∧
    (⟨sampleState.fonts, [mkDrawCall textA 10, mkDrawCall textB 20],
      [⟨10, 10, 24, 16⟩, ⟨10, 40, 24, 16⟩], []⟩ : RState).pushed.length =
      sampleState.pushed.length +
        (textDraws sampleWidgets sampleState.fonts [(1, 10), (2, 20)]).length :=
  claimC4_amended sampleDrawText sampleWidgets [(1, 10), (2, 20)] sampleState
    ⟨sampleState.fonts, [mkDrawCall textA 10, mkDrawCall textB 20],
     [⟨10, 10, 24, 16⟩, ⟨10, 40, 24, 16⟩], []⟩ rfl

/-- C5, code bug: the value string is drawn with the cached font at the
configured position, but at the hardcoded color Rgba(0xff, 0, 0, 0xff) of
render.rs line 117 — the configured `text.font_color` sits in a comment on
that line — so a widget configured white is drawn red. -/
theorem claimC5_code_bug :
    Except.map (fun st => st.drawn.map (fun c => (c.font, c.color, c.pos, c.text)))
        (render_text sampleDrawText textA 3 55 sampleState) =
      Except.ok [("a.ttf", ⟨0xff, 0, 0, 0xff⟩, ⟨10, 10⟩, " 55")] ∧
    textA.font_color = ⟨0xff, 0xff, 0xff, 0xff⟩ ∧
    (⟨0xff, 0, 0, 0xff⟩ : Rgba) ≠ textA.font_color :=
  ⟨rfl, rfl, by decide⟩

/-- C7, corrected. A text widget whose font is missing from the cache is a
per-widget failure for the current Snapshot only: the widget is skipped and
the remaining entries are processed exactly as if it were absent — but the
failure is not logged: render discards render_widget's Result, so the state
(including the log trace) is untouched by the failing widget. -/
theorem claimC7_amended (dt : DrawTextFn) (widgets : List (Nat × DeviceMeter))
    (id : Nat) (widget : DeviceMeter) (w : Text) (value : ℚ)
    (rest : List (Nat × ℚ)) (st : RState)
    (hw : alookup id widgets = some widget) (htext : widget.text = some w)
    (hfont : alookup w.font st.fonts = none) :
    render dt widgets ((id, value) :: rest) st = render dt widgets rest st := by
  simp [render, render_widget, hw, htext, render_text, hfont]

/-- C7, counterexample to the claim as stated: with widget 1's font missing
from the cache, widget 1 is skipped and widget 2 is still drawn, but the log
trace stays empty — the per-widget failure is not logged. -/
theorem claimC7_counterexample :
    (render sampleDrawText sampleWidgets [(1, 5), (2, 7)] stateOnlyB).map
        (fun st => (st.drawn.map (fun c => c.font), st.logs)) =
      some (["b.ttf"], []) := by
  decide

/-- C7 witness: the amended theorem applied to the concrete snapshot whose
first widget's font is missing. -/
theorem claimC7_witness :
    render sampleDrawText sampleWidgets [(1, 5), (2, 7)] stateOnlyB =
      render sampleDrawText sampleWidgets [(2, 7)] stateOnlyB :=
  claimC7_amended sampleDrawText sampleWidgets 1 ⟨some textA, none⟩ textA 5
    [(2, 7)] stateOnlyB rfl rfl rfl

/-- C9, confirmed. A drawn text widget's value is formatted by
formatValue 3 — right-justified in a fixed field of width 3 at an explicit
precision of 0 digits (the field never truncates: its length is the maximum
of 3 and the rounded decimal's length) — and 55.0 is drawn as " 55". -/
theorem claimC9 (dt : DrawTextFn) (widgets : List (Nat × DeviceMeter))
    (id : Nat) (widget : DeviceMeter) (w : Text) (value : ℚ) (st st₂ : RState)
    (hw : alookup id widgets = some widget) (htext : widget.text = some w)
    (h : render_widget dt widgets id value st = some (Except.ok st₂)) :
    st₂.drawn.map (fun c => c.text) =
      st.drawn.map (fun c => c.text) ++ [formatValue 3 value] ∧
    (formatValue 3 value).length = max 3 (toString (roundHalfEven value)).length ∧
    formatValue 3 55 = " 55" := by
  refine ⟨?_, ?_, by decide⟩
  · cases hfont : alookup w.font st.fonts with
    | none => simp [render_widget, hw, htext, render_text, hfont] at h
    | some fnt =>
      simp [render_widget, hw, htext, render_text, hfont] at h
      subst h
      simp
  · simp only [formatValue, rightJustify]
    have : ∀ (l : List Char) (s : String), (String.mk l ++ s).length = l.length + s.length := by
      intro l s
      cases s
      simp [String.length, String.instAppend, String.append]
    rw [this]
    simp only [List.length_replicate]
    omega

/-- C9 witness: the theorem applied to widget 1 at value 55. -/
theorem claimC9_witness :
    (⟨sampleState.fonts, [drawCallA55], [⟨10, 10, 24, 16⟩], []⟩ : RState).drawn.map
        (fun c => c.text) =
      sampleState.drawn.map (fun c => c.text) ++ [formatValue 3 55] ∧
    (formatValue 3 55).length = max 3 (toString (roundHalfEven 55)).length ∧
    formatValue 3 55 = " 55" :=
  claimC9 sampleDrawText sampleWidgets 1 ⟨some textA, none⟩ textA 55 sampleState
    ⟨sampleState.fonts, [drawCallA55], [⟨10, 10, 24, 16⟩], []⟩ rfl rfl rfl

/-- C10, confirmed. render_widget reads the widget table by direct indexing:
for an id absent from the table the call panics (it does not return an
error), and for any id present the call never panics. -/
theorem claimC10 (dt : DrawTextFn) (widgets : List (Nat × DeviceMeter))
    (id : Nat) (value : ℚ) (st : RState) :
    (alookup id widgets = none → render_widget dt widgets id value st = none) ∧
    (∀ widget, alookup id widgets = some widget →
      (render_widget dt widgets id value st).isSome = true) := by
  constructor
  · intro h; simp [render_widget, h]
  · intro widget h; simp [render_widget, h]

/-- C10 witness: the theorem applied to an id missing from the table (panic)
and to an id present in it (no panic). -/
theorem claimC10_witness :
    render_widget sampleDrawText sampleWidgets 3 5 sampleState = none ∧
    (render_widget sampleDrawText sampleWidgets 1 5 sampleState).isSome = true :=
  ⟨(claimC10 sampleDrawText sampleWidgets 3 5 sampleState).1 rfl,
   (claimC10 sampleDrawText sampleWidgets 1 5 sampleState).2 ⟨some textA, none⟩ rfl⟩

/-- C8, confirmed. create_meter fails with "invalid meter" on every id outside
the fixed two-entry table, delegates the known ids to their concrete
constructors (propagating their failure), and succeeds exactly when the
chosen concrete constructor succeeds. -/
theorem claimC8 (p t : Nat → Except String Meter) (id : Nat) :
    (id ≠ CPU_PERCENTAGE → id ≠ CPU_TEMPERATURE →
      create_meter p t id = Except.error "invalid meter") ∧
    create_meter p t CPU_PERCENTAGE = p CPU_PERCENTAGE ∧
    create_meter p t CPU_TEMPERATURE = t CPU_TEMPERATURE ∧
    (isOkE (create_meter p t id) = true ↔
      (id = CPU_PERCENTAGE ∧ isOkE (p id) = true) ∨
      (id = CPU_TEMPERATURE ∧ isOkE (t id) = true)) := by
  have hne : CPU_PERCENTAGE ≠ CPU_TEMPERATURE := by decide
  refine ⟨?_, ?_, ?_, ?_⟩
  · intro h1 h2; simp [create_meter, h1, h2]
  · simp [create_meter]
  · simp [create_meter, hne.symm]
  · by_cases h1 : id = CPU_PERCENTAGE
    · subst h1; simp [create_meter, hne]
    · by_cases h2 : id = CPU_TEMPERATURE
      · subst h2; simp [create_meter, hne.symm, h1]
      · simp [create_meter, h1, h2, isOkE]

/-- C8 witness: the theorem applied to the unknown id 0 and to the known
temperature id with a failing concrete constructor. -/
theorem claimC8_witness :
    create_meter okM errM 0 = Except.error "invalid meter" ∧
    create_meter okM errM CPU_TEMPERATURE = errM CPU_TEMPERATURE :=
  ⟨(claimC8 okM errM 0).1 (by decide) (by decide),
   (claimC8 okM errM 0).2.2.1⟩

/-- Mapping a key-preserving function that fixes every binding of key k does
not change what k looks up to. -/
theorem alookup_map_keyfix {α β : Type} [DecidableEq α] (k : α) (f : α × β → α × β)
    (hf : ∀ p, (f p).1 = p.1) (hkeep : ∀ p, p.1 = k → f p = p) :
    ∀ m : List (α × β), alookup k (m.map f) = alookup k m := by
  intro m
  induction m with
  | nil => rfl
  | cons p rest ih =>
    obtain ⟨a, b⟩ := p
    simp only [List.map_cons]
    by_cases hka : k = a
    · rw [hkeep (a, b) hka.symm]
      simp [alookup, hka]
    · cases hfab : f (a, b) with
      | mk c d =>
        have hc : c = a := by
          have hx := hf (a, b)
          rw [hfab] at hx
          exact hx
        subst hc
        simp [alookup, hka, ih]

/-- The map-style overwrite of insertAssoc makes the overwritten key look up
to the new value whenever the key was present. -/
theorem alookup_map_overwrite_self {α β : Type} [DecidableEq α] (k₂ : α) (v : β) :
    ∀ m : List (α × β), (alookup k₂ m).isSome = true →
      alookup k₂ (m.map (fun p => if p.1 = k₂ then (k₂, v) else p)) = some v := by
  intro m
  induction m with
  | nil => intro h; simp [alookup] at h
  | cons p rest ih =>
    obtain ⟨a, b⟩ := p
    intro h
    simp only [List.map_cons]
    by_cases ha : a = k₂
    · rw [if_pos ha]
      simp [alookup]
    · rw [if_neg ha]
      have hka : ¬(k₂ = a) := fun hh => ha hh.symm
      simp only [alookup] at h ⊢
      rw [if_neg hka] at h ⊢
      exact ih h

/-- Looking a key up after appending one binding at the tail: the original
bindings shadow the appended one. -/
theorem alookup_append_single {α β : Type} [DecidableEq α] (k k₂ : α) (v : β) :
    ∀ (m : List (α × β)),
      alookup k (m ++ [(k₂, v)]) =
        match alookup k m with
        | some w => some w
        | none => if k = k₂ then some v else none := by
  intro m
  induction m with
  | nil => simp [alookup]
  | cons p rest ih =>
    obtain ⟨a, b⟩ := p
    by_cases hk : k = a <;> simp [alookup, hk, ih]

/-- HashMap::insert semantics through alookup: the inserted key maps to the
new value and every other key is unchanged. -/
theorem alookup_insertAssoc {α β : Type} [DecidableEq α] (m : List (α × β))
    (k k₂ : α) (v : β) :
    alookup k (insertAssoc m k₂ v) = if k = k₂ then some v else alookup k m := by
  unfold insertAssoc
  by_cases hpres : (alookup k₂ m).isSome
  · rw [if_pos hpres]
    by_cases hk : k = k₂
    · subst hk
      rw [if_pos rfl]
      exact alookup_map_overwrite_self k v m hpres
    · rw [if_neg hk]
      refine alookup_map_keyfix k _ ?_ ?_ m
      · intro p
        obtain ⟨a, b⟩ := p
        by_cases h : a = k₂ <;> simp [h]
      · intro p hp
        obtain ⟨a, b⟩ := p
        have hp₂ : a = k := hp
        subst hp₂
        simp [hk]
  · rw [if_neg hpres, alookup_append_single]
    by_cases hk : k = k₂
    · subst hk
      have hnone : alookup k m = none := by
        cases h : alookup k m with
        | none => rfl
        | some w => rw [h] at hpres; simp at hpres
      simp [hnone]
    · cases h : alookup k m <;> simp [hk]

/-- A successful lookup names a binding of the list. -/
theorem alookup_mem {α β : Type} [DecidableEq α] (k : α) (v : β) :
    ∀ (m : List (α × β)), alookup k m = some v → (k, v) ∈ m := by
  intro m
  induction m with
  | nil => intro h; simp [alookup] at h
  | cons p rest ih =>
    obtain ⟨a, b⟩ := p
    intro h
    by_cases hk : k = a
    · subst hk
      simp [alookup] at h
      subst h
      simp
    · simp [alookup, hk] at h
      simp [ih h]

/-- Every value of the measurement table built by run's initialization loop
is 0. -/
theorem initMeas_fold_values :
    ∀ (configs : List MeterConfig) (acc : List (Nat × ℚ)),
      (∀ pr ∈ acc, pr.2 = 0) →
      ∀ pr ∈ configs.foldl (fun ms cfg => insertAssoc ms cfg.id 0) acc, pr.2 = 0 := by
  intro configs
  induction configs with
  | nil => intro acc hacc; simpa using hacc
  | cons c rest ih =>
    intro acc hacc
    simp only [List.foldl_cons]
    refine ih _ ?_
    intro pr hpr
    unfold insertAssoc at hpr
    by_cases hp : (alookup c.id acc).isSome
    · rw [if_pos hp] at hpr
      simp only [List.mem_map] at hpr
      obtain ⟨q, hq, hval⟩ := hpr
      by_cases hc : q.1 = c.id
      · rw [if_pos hc] at hval; rw [← hval]
      · rw [if_neg hc] at hval; rw [← hval]; exact hacc q hq
    · rw [if_neg hp] at hpr
      simp only [List.mem_append, List.mem_singleton] at hpr
      cases hpr with
      | inl h => exact hacc pr h
      | inr h => rw [h]

/-- Every configured id is a key of the measurement table built by run's
initialization loop. -/
theorem initMeas_fold_mem :
    ∀ (configs : List MeterConfig) (acc : List (Nat × ℚ)) (k : Nat),
      (k ∈ configs.map (fun c => c.id) ∨ (alookup k acc).isSome) →
      (alookup k (configs.foldl (fun ms cfg => insertAssoc ms cfg.id 0) acc)).isSome := by
  intro configs
  induction configs with
  | nil =>
    intro acc k h
    simp only [List.map_nil, List.not_mem_nil, false_or] at h
    simpa using h
  | cons c rest ih =>
    intro acc k h
    simp only [List.foldl_cons]
    refine ih _ k ?_
    simp only [List.map_cons, List.mem_cons] at h
    rcases h with (h | h) | h
    · right; rw [alookup_insertAssoc]; simp [h]
    · left; exact h
    · right; rw [alookup_insertAssoc]
      by_cases hk : k = c.id <;> simp [hk, h]

/-- The measurement table run hands to the Scheduler holds every configured
id at value 0. -/
theorem alookup_initMeasurements (configs : List MeterConfig) (cfg : MeterConfig)
    (hcfg : cfg ∈ configs) :
    alookup cfg.id (initMeasurements configs) = some 0 := by
  have hs : (alookup cfg.id (initMeasurements configs)).isSome := by
    unfold initMeasurements
    apply initMeas_fold_mem
    left
    exact List.mem_map_of_mem _ hcfg
  cases h : alookup cfg.id (initMeasurements configs) with
  | none => rw [h] at hs; simp at hs
  | some v =>
    have hz : v = 0 :=
      initMeas_fold_values configs [] (by simp) (cfg.id, v) (alookup_mem _ _ _ h)
    rw [hz]

/-- A meter create_meter constructs carries the id it was asked for, given
that both concrete constructors do. -/
theorem create_meter_id (p t : Nat → Except String Meter)
    (hp : ∀ i m, p i = Except.ok m → m.id = i)
    (ht : ∀ i m, t i = Except.ok m → m.id = i)
    (i : Nat) (m : Meter) (h : create_meter p t i = Except.ok m) : m.id = i := by
  unfold create_meter at h
  by_cases h1 : i = CPU_PERCENTAGE
  · rw [if_pos h1] at h; exact hp i m h
  · rw [if_neg h1] at h
    by_cases h2 : i = CPU_TEMPERATURE
    · rw [if_pos h2] at h; exact ht i m h
    · rw [if_neg h2] at h; simp at h

/-- register_meters never creates a task for an id whose meter construction
fails. -/
theorem taskIds_register_meters (p t : Nat → Except String Meter) (x : Nat)
    (hp : ∀ i m, p i = Except.ok m → m.id = i)
    (ht : ∀ i m, t i = Except.ok m → m.id = i)
    (hx : isOkE (create_meter p t x) = false) :
    ∀ (configs : List MeterConfig) (acc : SchedulerS × List String),
      x ∉ taskIds acc.1 →
      x ∉ taskIds (configs.foldl
        (fun acc cfg =>
          match create_meter p t cfg.id with
          | Except.ok m => (register_task acc.1 (Task.mk m cfg.interval), acc.2)
          | Except.error e =>
            (acc.1, acc.2 ++ ["cannot register " ++ toString cfg.id ++ ": " ++ e]))
        acc).1 := by
  intro configs
  induction configs with
  | nil => intro acc hacc; simpa using hacc
  | cons c rest ih =>
    intro acc hacc
    simp only [List.foldl_cons]
    cases hc : create_meter p t c.id with
    | error e =>
      refine ih _ ?_
      exact hacc
    | ok m =>
      refine ih _ ?_
      show x ∉ taskIds (register_task acc.1 (Task.mk m c.interval))
      simp only [taskIds, register_task, List.map_append, List.map_cons, List.map_nil,
        List.mem_append, List.mem_singleton]
      rintro (h | h)
      · exact hacc h
      · rw [create_meter_id p t hp ht c.id m hc] at h
        rw [h] at hx
        rw [hc] at hx
        simp [isOkE] at hx

/-- An id without a registered task is never touched by a scheduler
quantum. -/
theorem alookup_tickTable (ids : List Nat) (s : Nat → Option ℚ) (k : Nat)
    (hk : k ∉ ids) :
    ∀ table, alookup k (tickTable ids s table) = alookup k table := by
  intro table
  unfold tickTable
  refine alookup_map_keyfix k _ ?_ ?_ table
  · intro p
    obtain ⟨a, b⟩ := p
    by_cases h : a ∈ ids
    · cases hs : s a <;> simp [h, hs]
    · simp [h]
  · intro p hp
    obtain ⟨a, b⟩ := p
    have hp₂ : a = k := hp
    subst hp₂
    simp [hk]

/-- An id without a registered task keeps its table value in every published
Snapshot. -/
theorem alookup_snapshots (ids : List Nat) (k : Nat) (q : ℚ) (hk : k ∉ ids) :
    ∀ (samples : List (Nat → Option ℚ)) (table : List (Nat × ℚ)),
      alookup k table = some q →
      ∀ snap ∈ snapshots ids samples table, alookup k snap = some q := by
  intro samples
  induction samples with
  | nil => intro table ht snap hs; simp [snapshots] at hs
  | cons s rest ih =>
    intro table ht snap hs
    simp only [snapshots, List.mem_cons] at hs
    have ht₂ : alookup k (tickTable ids s table) = some q := by
      rw [alookup_tickTable ids s k hk]; exact ht
    cases hs with
    | inl h => rw [h]; exact ht₂
    | inr h => exact ih (tickTable ids s table) ht₂ snap h

/-- C3, corrected. A configured id whose Meter cannot be constructed gets no
Task — the Scheduler's task set never mentions it and it is never sampled —
but run's initialization loop has already inserted the id into the
measurement table at 0.0, so every published Snapshot still contains the id
with value 0.0 rather than omitting it. -/
theorem claimC3_amended (p t : Nat → Except String Meter)
    (configs : List MeterConfig) (cfg : MeterConfig)
    (samples : List (Nat → Option ℚ))
    (hp : ∀ i m, p i = Except.ok m → m.id = i)
    (ht : ∀ i m, t i = Except.ok m → m.id = i)
    (hcfg : cfg ∈ configs)
    (herr : isOkE (create_meter p t cfg.id) = false) :
    cfg.id ∉ taskIds (register_meters p t ⟨[]⟩ configs).1 ∧
    ∀ snap ∈ snapshots (taskIds (register_meters p t ⟨[]⟩ configs).1) samples
        (initMeasurements configs),
      alookup cfg.id snap = some 0 := by
  have hnot : cfg.id ∉ taskIds (register_meters p t ⟨[]⟩ configs).1 := by
    unfold register_meters
    exact taskIds_register_meters p t cfg.id hp ht herr configs (⟨[]⟩, [])
      (by simp [taskIds])
  refine ⟨hnot, ?_⟩
  intro snap hsnap
  exact alookup_snapshots _ cfg.id 0 hnot samples (initMeasurements configs)
    (alookup_initMeasurements configs cfg hcfg) snap hsnap

/-- C3, counterexample to the claim as stated: the unconstructible id 42 gets
no task, yet the published Snapshot still contains it (at 0.0) instead of
omitting it. -/
theorem claimC3_counterexample :
    (register_meters okM okM ⟨[]⟩ cfgUnknown).1.tasks = [] ∧
    snapshots (taskIds (register_meters okM okM ⟨[]⟩ cfgUnknown).1)
        [fun _ => none] (initMeasurements cfgUnknown) = [[(42, 0)]] :=
  ⟨rfl, rfl⟩

/-- C3 witness: the amended theorem applied to the concrete unknown-id
config. -/
theorem claimC3_witness :
    42 ∉ taskIds (register_meters okM errM ⟨[]⟩ cfgUnknown).1 ∧
    alookup 42 [(42, (0 : ℚ))] = some 0 := by
  have h := claimC3_amended okM errM cfgUnknown ⟨42, 1, ⟨some textA, none⟩⟩
    [fun _ => none]
    (fun i m hm => by simp [okM] at hm; rw [← hm])
    (fun i m hm => by simp [errM] at hm)
    (List.mem_singleton_self _)
    (by decide)
  exact ⟨h.1, h.2 [(42, 0)] (by decide)⟩

/-- referencedFonts over a cons, by the head's widget kind. -/
theorem referencedFonts_cons (cfg : MeterConfig) (rest : List MeterConfig) :
    referencedFonts (cfg :: rest) =
      match cfg.layout.text with
      | none => referencedFonts rest
      | some t => t.font :: referencedFonts rest := by
  cases h : cfg.layout.text <;> simp [referencedFonts, List.filterMap_cons, h]

/-- Appending one binding at the tail adds exactly its key to the domain. -/
theorem alookup_isSome_append {α β : Type} [DecidableEq α] (k k₂ : α) (v : β)
    (m : List (α × β)) :
    (alookup k (m ++ [(k₂, v)])).isSome =
      ((alookup k m).isSome || decide (k = k₂)) := by
  rw [alookup_append_single]
  cases h : alookup k m with
  | some w => simp
  | none => by_cases hk : k = k₂ <;> simp [hk]

/-- Invariant of the font-loading loop of Renderer::new: assuming the load
trace so far is duplicate-free and lists exactly the cached font names, a
successful run extends it, still duplicate-free, to cover exactly the old
loads plus the font names referenced by the remaining configs. -/
theorem loadFonts_loads (readFile : String → Except String (List Nat))
    (fromData : List Nat → Except String Font) :
    ∀ (configs : List MeterConfig) (widgets : List (Nat × DeviceMeter))
      (fontMap : List (String × Font)) (loads : List String)
      (w : List (Nat × DeviceMeter)) (f : List (String × Font)) (l : List String),
      (∀ s, s ∈ loads ↔ (alookup s fontMap).isSome = true) →
      loads.Nodup →
      loadFonts readFile fromData configs widgets fontMap loads = Except.ok (w, f, l) →
      l.Nodup ∧ (∀ s, s ∈ l ↔ s ∈ loads ∨ s ∈ referencedFonts configs) := by
  intro configs
  induction configs with
  | nil =>
    intro widgets fontMap loads w f l hinv hnd h
    simp only [loadFonts, Except.ok.injEq, Prod.mk.injEq] at h
    obtain ⟨-, -, hl⟩ := h
    subst hl
    simp [referencedFonts, hnd]
  | cons cfg rest ih =>
    intro widgets fontMap loads w f l hinv hnd h
    simp only [loadFonts] at h
    cases htext : cfg.layout.text with
    | none =>
      rw [htext] at h
      have hres := ih _ _ _ w f l hinv hnd h
      rw [referencedFonts_cons]
      simpa [htext] using hres
    | some text =>
      rw [htext] at h
      replace h : (if (alookup text.font fontMap).isSome = true then
          loadFonts readFile fromData rest (insertAssoc widgets cfg.id cfg.layout)
            fontMap loads
        else
          match readFile ("res/fonts/" ++ text.font) with
          | Except.error e => Except.error e
          | Except.ok data =>
            match fromData data with
            | Except.error e => Except.error e
            | Except.ok font =>
              loadFonts readFile fromData rest (insertAssoc widgets cfg.id cfg.layout)
                (fontMap ++ [(text.font, font)]) (loads ++ [text.font])) =
          Except.ok (w, f, l) := h
      by_cases hc : (alookup text.font fontMap).isSome = true
      · rw [if_pos hc] at h
        have hres := ih _ _ _ w f l hinv hnd h
        refine ⟨hres.1, ?_⟩
        intro s
        rw [referencedFonts_cons]
        simp only [htext, List.mem_cons]
        rw [hres.2 s]
        constructor
        · intro hh
          tauto
        · intro hh
          rcases hh with hh | hh | hh
          · tauto
          · left; rw [hh]; exact (hinv text.font).2 hc
          · tauto
      · rw [if_neg hc] at h
        cases hread : readFile ("res/fonts/" ++ text.font) with
        | error e => rw [hread] at h; exact Except.noConfusion h
        | ok data =>
          rw [hread] at h
          replace h : (match fromData data with
              | Except.error e => Except.error e
              | Except.ok font =>
                loadFonts readFile fromData rest (insertAssoc widgets cfg.id cfg.layout)
                  (fontMap ++ [(text.font, font)]) (loads ++ [text.font])) =
              Except.ok (w, f, l) := h
          cases hfd : fromData data with
          | error e => rw [hfd] at h; exact Except.noConfusion h
          | ok font =>
            rw [hfd] at h
            replace h : loadFonts readFile fromData rest
                (insertAssoc widgets cfg.id cfg.layout)
                (fontMap ++ [(text.font, font)]) (loads ++ [text.font]) =
                Except.ok (w, f, l) := h
            have hinv₂ : ∀ s, s ∈ loads ++ [text.font] ↔
                (alookup s (fontMap ++ [(text.font, font)])).isSome = true := by
              intro s
              rw [alookup_isSome_append]
              simp [hinv s]
            have hnotmem : text.font ∉ loads := fun hmem =>
              absurd ((hinv text.font).1 hmem) hc
            have hnd₂ : (loads ++ [text.font]).Nodup := by
              simp [List.nodup_append, hnd, hnotmem]
            have hres := ih _ _ _ w f l hinv₂ hnd₂ h
            refine ⟨hres.1, ?_⟩
            intro s
            rw [referencedFonts_cons]
            simp only [htext, List.mem_cons]
            rw [hres.2 s]
            simp only [List.mem_append, List.mem_singleton]
            tauto

/-- C6, confirmed. A successful Renderer construction loads each distinct
font name referenced by a TextWidget exactly once: the load trace is
duplicate-free and is a permutation of the deduplicated list of referenced
font names (later references are served from the cache). -/
theorem claimC6 (readFile : String → Except String (List Nat))
    (fromData : List Nat → Except String Font) (dev : Except String (Nat × Nat))
    (configs : List MeterConfig) (w : List (Nat × DeviceMeter))
    (f : List (String × Font)) (loads : List String)
    (h : rendererNew readFile fromData dev configs = Except.ok (w, f, loads)) :
    loads.Nodup ∧ loads.Perm (referencedFonts configs).dedup := by
  unfold rendererNew at h
  cases hlf : loadFonts readFile fromData configs [] [] [] with
  | error e => rw [hlf] at h; simp at h
  | ok res =>
    rw [hlf] at h
    cases dev with
    | error e => simp at h
    | ok wh =>
      simp only [Except.ok.injEq] at h
      rw [h] at hlf
      have hres := loadFonts_loads readFile fromData configs [] [] [] w f loads
        (by simp [alookup]) List.nodup_nil hlf
      refine ⟨hres.1, ?_⟩
      refine (List.perm_ext_iff_of_nodup hres.1 (List.nodup_dedup _)).2 ?_
      intro s
      rw [hres.2 s]
      simp [List.mem_dedup]

/-- C6 witness: the theorem applied to a concrete config list in which two
TextWidgets share the font a.ttf and a third references b.ttf. -/
theorem claimC6_witness :
    (["a.ttf", "b.ttf"] : List String).Nodup ∧
    (["a.ttf", "b.ttf"] : List String).Perm (referencedFonts cfgsFonts).dedup :=
  claimC6 rfOk fdOk (Except.ok (480, 320)) cfgsFonts
    [(1, ⟨some textA, none⟩), (2, ⟨some textB, none⟩),
     (3, ⟨some ⟨"a.ttf", 14, ⟨0, 0, 0, 255⟩, 5, 5⟩, none⟩),
     (4, ⟨none, some ⟨⟩⟩)]
    [("a.ttf", ⟨[7]⟩), ("b.ttf", ⟨[7]⟩)]
    ["a.ttf", "b.ttf"] rfl

end TuringMonitor
